import Mathlib

/-!
Verification of the orphaned-WAL reclamation subsystem (`package cleaner`).

The Go source being embedded is the `walCleaner` type and its methods:
`getManagedStorage`, `getAllStorage`, `lastWrittenTime`, `abandonedStorage`,
`run`, `CleanupStorage`, `Stop`, and the constructor `NewCleaner`.

Modelling conventions:
- Filesystem timestamps and durations are integers (e.g. Unix seconds);
  `time.Time.Sub` and duration comparison become integer subtraction and
  ordering, which they are at realistic scales.
- The filesystem is an explicit input: the `filepath.Walk` traversal of the
  WAL root is a list of `WalkVisit` values (one per callback invocation,
  carrying exactly what the Go callback receives: path, parent directory,
  directory flag, and error); the per-storage-directory WAL inspection
  results are a function `String → WalState`.
- Fallible operations return `Except String _`; panics are `PanicOr`.
- Resource usage of `lastWrittenTime` is an explicit event trace so that
  handle release and non-mutation are statable.
-/

/-- An `instance.ManagedInstance` as consumed by the cleaner: it only
exposes its storage directory (`StorageDirectory()`). -/
structure ManagedInstance where
  storageDirectory : String
deriving DecidableEq

/-- The state of the WAL under one storage directory, as observed by
`lastWrittenTime` (lines 84-113): whether `promwal.Open` fails, whether
`Segments()` fails, the index of the most recent segment (`-1` when the WAL
holds no segments), whether `os.Stat` on the most recent segment fails, and
that segment's modification time. -/
structure WalState where
  openErr : Option String
  segmentsErr : Option String
  lastSegment : Int
  statErr : Option String
  lastMtime : Int
deriving DecidableEq

/-- One invocation of the `filepath.Walk` callback in `getAllStorage`
(lines 67-78): the visited path `p`, its parent directory `path.Dir(p)`,
whether `info.IsDir()`, and the traversal error for this entry
(`none` when the entry was read successfully). -/
structure WalkVisit where
  path : String
  parent : String
  isDir : Bool
  err : Option String
deriving DecidableEq

/-- The `walCleaner` struct restricted to the fields the reconciliation
reads (`walDirectory`, `minAge`), together with the explicit model of the
filesystem it inspects: the walk of the WAL root and the per-directory WAL
states. The logger performs no control flow and is omitted; the instance
manager is passed at each call as in `ListInstances()`. -/
structure Cleaner where
  walDirectory : String
  minAge : Int
  walk : List WalkVisit
  walStates : String → WalState

/-- Resource events emitted by one call to `lastWrittenTime`: opening the
WAL handle, closing it (the deferred `existing.Close()`), and writing to
the WAL (which the code never does). -/
inductive ResEvent where
  | openEv : ResEvent
  | closeEv : ResEvent
  | writeEv : ResEvent
deriving DecidableEq, BEq

/-- Modelled from the spec: `wal.SubDirectory` (package `pkg/prom/wal`,
not part of the sources here) maps a storage directory to its WAL
subdirectory; the spec gives the on-disk layout
`walRootPath/<opaque-instance-storage-name>/<wal-subdir>/<segments>`.
Only the text of one error message depends on it. -/
def SubDirectory (storage : String) : String :=
  storage ++ "/wal"

/-- `getManagedStorage` (lines 52-60): collect the storage directory of
every managed instance from the registry snapshot (a map from instance id
to instance; the ids are not consulted). The Go code builds a
`map[string]bool` used only for membership tests, modelled as a list
queried with `contains`. -/
def getManagedStorage (instances : List (String × ManagedInstance)) : List String :=
  instances.map (fun p => p.2.storageDirectory)

/-- `getAllStorage` (lines 63-81): fold over the `filepath.Walk` visits of
the WAL root. An erred visit is only logged (omitted from the result, the
walk continues); a successfully read entry is collected exactly when it is
a directory whose parent is the root. The callback always returns `nil`
and the walk's own return value is discarded (`_ =`), so no error channel
exists in the result type. -/
def getAllStorage (root : String) (visits : List WalkVisit) : List String :=
  visits.filterMap (fun v =>
    if v.err.isSome then
      none
    else if v.isDir && v.parent == root then
      some v.path
    else
      none)

/-- `lastWrittenTime` (lines 84-113): open the WAL under the storage
directory; on success the handle is closed by `defer` on every exit path.
Then: a `Segments()` error is returned; `last == -1` (no segments) yields
the distinguished `fmt.Errorf` error; a `Stat` error on the most recent
segment is returned; otherwise the segment's modification time is
returned. The second component is the resource-event trace of the call. -/
def lastWrittenTime (storage : String) (w : WalState) : Except String Int × List ResEvent :=
  match w.openErr with
  | some e => (.error e, [])
  | none =>
    match w.segmentsErr with
    | some e => (.error e, [.openEv, .closeEv])
    | none =>
      if w.lastSegment = -1 then
        (.error ("unable to determine most recent segment for " ++ SubDirectory storage),
         [.openEv, .closeEv])
      else
        match w.statErr with
        | some e => (.error e, [.openEv, .closeEv])
        | none => (.ok w.lastMtime, [.openEv, .closeEv])

/-- Loop body of `abandonedStorage` (lines 123-143) for one directory:
a managed directory is only logged ("active WAL"); for an unmanaged one,
an inspection error is logged and the directory skipped; otherwise the
directory is emitted exactly when `now - mtime > minAge` (strict). -/
def classifyDir (c : Cleaner) (managed : List String) (now : Int) (dir : String) :
    Option String :=
  if managed.contains dir then
    none
  else
    match (lastWrittenTime dir (c.walStates dir)).1 with
    | .error _ => none
    | .ok mtime =>
      if now - mtime > c.minAge then some dir else none

/-- `abandonedStorage` (lines 117-146): the unmanaged, stale storage
directories, in the order `getAllStorage` produced them. -/
def abandonedStorage (c : Cleaner) (instances : List (String × ManagedInstance))
    (now : Int) : List String :=
  (getAllStorage c.walDirectory c.walk).filterMap
    (classifyDir c (getManagedStorage instances) now)

/-- The observable outcome of one `CleanupStorage` pass: the directories
classified abandoned, the directories actually removed from disk, and the
returned error (`none` = `nil`). -/
structure CleanupResult where
  abandoned : List String
  deleted : List String
  err : Option String
deriving DecidableEq

/-- `CleanupStorage` (lines 162-172): list the instances, classify the
abandoned directories, and for each one only log "would delete WAL"
(the deletion is a `TODO` in the source, line 167); nothing is removed
from disk and the returned error is always `nil`. -/
def CleanupStorage (c : Cleaner) (instances : List (String × ManagedInstance))
    (now : Int) : CleanupResult :=
  { abandoned := abandonedStorage c instances now
    deleted := []
    err := none }

/-- Either a Go panic (with its message) or a normal result. -/
inductive PanicOr (α : Type) where
  | panicked : String → PanicOr α
  | ok : α → PanicOr α
deriving DecidableEq

/-- A `time.Ticker` as the cleaner sees it: its period. -/
structure Ticker where
  period : Int
deriving DecidableEq

/-- Go's `time.NewTicker` (standard library): documented to panic when the
duration is not positive ("non-positive interval for NewTicker"). -/
def NewTicker (d : Int) : PanicOr Ticker :=
  if d ≤ 0 then .panicked "non-positive interval for NewTicker" else .ok ⟨d⟩

/-- The `walCleaner` value built by the constructor, restricted to the
fields the constructor itself determines: the WAL root, `minAge`, the armed
ticker, and the freshly made (open) `done` channel. -/
structure CleanerHandle where
  walDirectory : String
  minAge : Int
  ticker : Ticker
  doneClosed : Bool
deriving DecidableEq

/-- `NewCleaner` (lines 37-49): build the `walCleaner` struct, arming
`time.NewTicker(period)` (which panics for `period ≤ 0`) and a fresh
`done` channel, then start the background loop. -/
def NewCleaner (walDirectory : String) (minAge period : Int) : PanicOr CleanerHandle :=
  match NewTicker period with
  | .panicked m => .panicked m
  | .ok t =>
    .ok { walDirectory := walDirectory, minAge := minAge, ticker := t, doneClosed := false }

/-- State of the background loop `run` (lines 148-160) and its two
channels: whether `done` has been closed, whether the ticker has been
stopped, how many ticks sit buffered in `ticker.C` (the Go runtime gives
the channel capacity 1 and drops ticks while it is full), how many
reconciliation passes the loop has started, and whether the loop has
returned. -/
structure LoopState where
  doneClosed : Bool
  tickerStopped : Bool
  pendingTicks : Nat
  passes : Nat
  returned : Bool
deriving DecidableEq

/-- One step of the system around `run` (lines 148-160). The loop's
`select` may take the `done` branch whenever `done` is closed (a closed
channel is always ready) and return, or take the ticker branch whenever a
tick is buffered, starting one reconciliation pass; independently the
runtime may deposit a tick into the empty buffer while the ticker is not
stopped. When both channels are ready, Go's `select` chooses between them
nondeterministically. -/
inductive RunStep : LoopState → LoopState → Prop
  | selectDone (s : LoopState) :
      s.returned = false → s.doneClosed = true →
      RunStep s { s with returned := true }
  | selectTick (s : LoopState) :
      s.returned = false → 0 < s.pendingTicks →
      RunStep s { s with pendingTicks := s.pendingTicks - 1, passes := s.passes + 1 }
  | tickArrive (s : LoopState) :
      s.tickerStopped = false → s.pendingTicks = 0 →
      RunStep s { s with pendingTicks := 1 }

/-- `Stop` (lines 174-178): stop the ticker, then `close(c.done)`.
Closing an already-closed channel panics in Go. -/
def stopCleaner (s : LoopState) : PanicOr LoopState :=
  if s.doneClosed then
    .panicked "close of closed channel"
  else
    .ok { s with doneClosed := true, tickerStopped := true }

/-! ### Concrete scenario (spec section 8, end-to-end)
WAL root `/wal` holding `inst-1`, `inst-2`, `orphan-1`; the registry
manages only `inst-1` and `inst-2`; `orphan-1`'s newest segment was
modified 10 hours (36000 s) before `now = 100000`; `minAge` is 6 hours
(21600 s). -/

/-- WAL state of the orphaned directory: segment 3 written at `now - 10h`. -/
def orphanWal : WalState :=
  { openErr := none, segmentsErr := none, lastSegment := 3, statErr := none
    lastMtime := 100000 - 36000 }

/-- WAL state of the managed directories: freshly written. -/
def activeWal : WalState :=
  { openErr := none, segmentsErr := none, lastSegment := 7, statErr := none
    lastMtime := 100000 }

/-- The cleaner over the scenario filesystem. -/
def scenarioCleaner : Cleaner :=
  { walDirectory := "/wal"
    minAge := 21600
    walk := [⟨"/wal", "/", true, none⟩,
             ⟨"/wal/inst-1", "/wal", true, none⟩,
             ⟨"/wal/inst-2", "/wal", true, none⟩,
             ⟨"/wal/orphan-1", "/wal", true, none⟩]
    walStates := fun d => if d = "/wal/orphan-1" then orphanWal else activeWal }

/-- The registry snapshot: `inst-1` and `inst-2` are managed. -/
def scenarioInstances : List (String × ManagedInstance) :=
  [("inst-1", ⟨"/wal/inst-1"⟩), ("inst-2", ⟨"/wal/inst-2"⟩)]

/-- A cleaner whose WAL root itself is unreadable: the walk consists of the
single erred visit `filepath.Walk` makes when it cannot stat the root. -/
def rootUnreadableCleaner : Cleaner :=
  { walDirectory := "/wal"
    minAge := 21600
    walk := [⟨"/wal", "/", false, some "permission denied"⟩]
    walStates := fun _ => activeWal }

/-! ### Shared lemmas -/

/-- Inversion of the loop body of `abandonedStorage`: an emitted value is
the inspected directory itself, it is unmanaged, its inspection succeeded,
and its age strictly exceeds `minAge`. -/
theorem classifyDir_eq_some {c : Cleaner} {managed : List String} {now : Int}
    {dir out : String} (h : classifyDir c managed now dir = some out) :
    out = dir ∧ managed.contains dir = false ∧
      ∃ mtime, (lastWrittenTime dir (c.walStates dir)).1 = .ok mtime ∧
        now - mtime > c.minAge := by
  unfold classifyDir at h
  by_cases hm : managed.contains dir = true
  · rw [if_pos hm] at h
    exact absurd h (by simp)
  · rw [if_neg hm] at h
    split at h
    · exact absurd h (by simp)
    · next mtime heq =>
      by_cases hd : now - mtime > c.minAge
      · rw [if_pos hd] at h
        exact ⟨(Option.some.inj h).symm, by simpa using hm, mtime, heq, hd⟩
      · rw [if_neg hd] at h
        exact absurd h (by simp)

/-- Cleaner over a WAL root holding one empty WAL (no segments). -/
def noSegWal : WalState :=
  { openErr := none, segmentsErr := none, lastSegment := -1, statErr := none
    lastMtime := 0 }

/-- Cleaner whose only storage directory has a WAL with no segments. -/
def noSegCleaner : Cleaner :=
  { walDirectory := "/wal"
    minAge := 21600
    walk := [⟨"/wal/empty", "/wal", true, none⟩]
    walStates := fun _ => noSegWal }

/-- Cleaner with one unmanaged directory whose age is exactly `minAge`. -/
def borderCleaner : Cleaner :=
  { walDirectory := "/wal"
    minAge := 21600
    walk := [⟨"/wal/border", "/wal", true, none⟩]
    walStates := fun _ =>
      { openErr := none, segmentsErr := none, lastSegment := 1, statErr := none
        lastMtime := 100000 - 21600 } }

/-! ### Claims -/

/-- C1: in the end-to-end scenario (root `/wal` with `inst-1`, `inst-2`,
`orphan-1`; only `inst-1`, `inst-2` managed; `orphan-1` 10 h stale;
`minAge` 6 h), `CleanupStorage` classifies exactly `orphan-1` as abandoned
and returns no error — but deletes nothing: the deletion the claim (and the
`Cleaner` interface documentation) requires is a `TODO` in the code, which
only logs "would delete WAL". -/
theorem cleanupStorage_scenario_identifies_but_does_not_delete :
    CleanupStorage scenarioCleaner scenarioInstances 100000 =
      { abandoned := ["/wal/orphan-1"], deleted := [], err := none } := by
  rfl

/-- C2: every path emitted by `abandonedStorage` is absent from the managed
set derived from the instance snapshot, and its most recent segment's age
relative to the pass's `now` strictly exceeds `minAge`; in particular a
managed path is never emitted, whatever the on-disk directory set is. -/
theorem abandoned_is_unmanaged_and_stale (c : Cleaner)
    (instances : List (String × ManagedInstance)) (now : Int) (dir : String)
    (h : dir ∈ abandonedStorage c instances now) :
    (getManagedStorage instances).contains dir = false ∧
      ∃ mtime, (lastWrittenTime dir (c.walStates dir)).1 = .ok mtime ∧
        now - mtime > c.minAge := by
  unfold abandonedStorage at h
  obtain ⟨a, _, hcl⟩ := List.mem_filterMap.mp h
  obtain ⟨rfl, hm, hrest⟩ := classifyDir_eq_some hcl
  exact ⟨hm, hrest⟩

/-- Witness for C2 at the end-to-end scenario. -/
theorem abandoned_is_unmanaged_and_stale_witness :
    "/wal/orphan-1" ∈ abandonedStorage scenarioCleaner scenarioInstances 100000 ∧
      ((getManagedStorage scenarioInstances).contains "/wal/orphan-1" = false ∧
        ∃ mtime,
          (lastWrittenTime "/wal/orphan-1" (scenarioCleaner.walStates "/wal/orphan-1")).1 =
            .ok mtime ∧ 100000 - mtime > scenarioCleaner.minAge) :=
  ⟨by decide,
   abandoned_is_unmanaged_and_stale scenarioCleaner scenarioInstances 100000
     "/wal/orphan-1" (by decide)⟩

/-- C3: an unmanaged directory whose age is at most `minAge` (the
comparison at line 132 is strict) is never emitted by the reconciliation. -/
theorem at_threshold_not_abandoned (c : Cleaner)
    (instances : List (String × ManagedInstance)) (now : Int) (d : String) (mtime : Int)
    (_hunm : (getManagedStorage instances).contains d = false)
    (hok : (lastWrittenTime d (c.walStates d)).1 = .ok mtime)
    (hle : now - mtime ≤ c.minAge) :
    d ∉ abandonedStorage c instances now := by
  intro hmem
  unfold abandonedStorage at hmem
  obtain ⟨a, _, hcl⟩ := List.mem_filterMap.mp hmem
  obtain ⟨rfl, _, mtime', hok', hgt⟩ := classifyDir_eq_some hcl
  rw [hok] at hok'
  have hmm := Except.ok.inj hok'
  omega

/-- Witness for C3: a directory exactly at the threshold is not abandoned. -/
theorem at_threshold_not_abandoned_witness :
    ((getManagedStorage []).contains "/wal/border" = false ∧
      (lastWrittenTime "/wal/border" (borderCleaner.walStates "/wal/border")).1 =
        .ok 78400 ∧
      (100000 : Int) - 78400 ≤ borderCleaner.minAge) ∧
    "/wal/border" ∉ abandonedStorage borderCleaner [] 100000 :=
  ⟨⟨by decide, rfl, by decide⟩,
   at_threshold_not_abandoned borderCleaner [] 100000 "/wal/border" 78400
     (by decide) rfl (by decide)⟩

/-- C4: a WAL whose open and segment listing succeed but which holds no
segments (`last == -1`) makes `lastWrittenTime` return the distinguished
`fmt.Errorf` error rather than a timestamp; and any directory whose
inspection returns an error — this one included — is skipped and never
classified abandoned. -/
theorem no_segments_error_and_never_abandoned :
    (∀ (storage : String) (w : WalState), w.openErr = none → w.segmentsErr = none →
      w.lastSegment = -1 →
      (lastWrittenTime storage w).1 =
        .error ("unable to determine most recent segment for " ++ SubDirectory storage)) ∧
    (∀ (c : Cleaner) (instances : List (String × ManagedInstance)) (now : Int)
      (d e : String),
      (lastWrittenTime d (c.walStates d)).1 = .error e →
      d ∉ abandonedStorage c instances now) := by
  constructor
  · intro storage w h1 h2 h3
    simp [lastWrittenTime, h1, h2, h3]
  · intro c instances now d e herr hmem
    unfold abandonedStorage at hmem
    obtain ⟨a, _, hcl⟩ := List.mem_filterMap.mp hmem
    obtain ⟨rfl, _, mtime, hok, _⟩ := classifyDir_eq_some hcl
    rw [herr] at hok
    exact absurd hok (by simp)

/-- Witness for C4 at a concrete empty WAL. -/
theorem no_segments_error_and_never_abandoned_witness :
    (lastWrittenTime "/wal/empty" noSegWal).1 =
      .error ("unable to determine most recent segment for " ++ SubDirectory "/wal/empty") ∧
    "/wal/empty" ∉ abandonedStorage noSegCleaner [] 100000 :=
  ⟨no_segments_error_and_never_abandoned.1 "/wal/empty" noSegWal rfl rfl rfl,
   no_segments_error_and_never_abandoned.2 noSegCleaner [] 100000 "/wal/empty"
     ("unable to determine most recent segment for " ++ SubDirectory "/wal/empty") rfl⟩

/-- C5 counterexample: with the WAL root itself unreadable (the walk is the
single erred root visit), `CleanupStorage` still returns no error — the
discarded `filepath.Walk` result (line 67) means no failure, root included,
ever propagates, contradicting the claim that a root-level failure is
surfaced to the caller. -/
theorem root_unreadable_returns_no_error :
    CleanupStorage rootUnreadableCleaner [] 100000 =
      { abandoned := [], deleted := [], err := none } := by
  rfl

/-- C5 amended: all traversal failures, the unreadable root included, are
absorbed (logged and the entry skipped); `CleanupStorage` never surfaces
any error — it returns `nil` unconditionally. -/
theorem cleanupStorage_never_returns_error (c : Cleaner)
    (instances : List (String × ManagedInstance)) (now : Int) :
    (CleanupStorage c instances now).err = none := by
  rfl

/-- C6: an erred visit anywhere in the walk is omitted from the scan's
result without terminating it (the entries before and after it are
returned unchanged), the scan has no error channel to its caller, and the
remaining directories are classified exactly as they would be without the
unreadable entry. -/
theorem unreadable_entry_skipped_others_classified (root : String)
    (xs ys : List WalkVisit) (e : WalkVisit) (he : e.err.isSome = true) :
    getAllStorage root (xs ++ e :: ys) = getAllStorage root (xs ++ ys) ∧
    (∀ (c : Cleaner) (instances : List (String × ManagedInstance)) (now : Int),
      c.walk = xs ++ e :: ys →
      abandonedStorage c instances now =
        abandonedStorage { c with walk := xs ++ ys } instances now) := by
  have hg : ∀ r, getAllStorage r (xs ++ e :: ys) = getAllStorage r (xs ++ ys) := by
    intro r
    simp [getAllStorage, List.filterMap_append, List.filterMap_cons, he]
  refine ⟨hg root, ?_⟩
  intro c instances now hwalk
  have h2 : abandonedStorage { c with walk := xs ++ ys } instances now =
      (getAllStorage c.walDirectory (xs ++ ys)).filterMap
        (classifyDir c (getManagedStorage instances) now) := rfl
  rw [h2]
  unfold abandonedStorage
  rw [hwalk, hg]

/-- Witness for C6: one unreadable entry among three; the other two are
still returned and classified. -/
theorem unreadable_entry_skipped_others_classified_witness :
    (WalkVisit.mk "/wal/bad" "/wal" true (some "permission denied")).err.isSome = true ∧
    getAllStorage "/wal"
        [WalkVisit.mk "/wal/a" "/wal" true none,
         WalkVisit.mk "/wal/bad" "/wal" true (some "permission denied"),
         WalkVisit.mk "/wal/c" "/wal" true none] =
      getAllStorage "/wal"
        [WalkVisit.mk "/wal/a" "/wal" true none,
         WalkVisit.mk "/wal/c" "/wal" true none] :=
  ⟨rfl,
   (unreadable_entry_skipped_others_classified "/wal"
      [WalkVisit.mk "/wal/a" "/wal" true none]
      [WalkVisit.mk "/wal/c" "/wal" true none]
      (WalkVisit.mk "/wal/bad" "/wal" true (some "permission denied")) rfl).1⟩

/-- C7 counterexample: starting from a loop state with one tick already
buffered in `ticker.C`, `Stop` returns (ticker stopped, `done` closed) and
the loop's `select` may still take the ticker branch, starting one more
reconciliation pass after `Stop` has returned — `ticker.Stop` does not
drain the channel and a closed `done` does not win the `select`. -/
theorem pending_tick_pass_begins_after_stop :
    stopCleaner
        { doneClosed := false, tickerStopped := false, pendingTicks := 1,
          passes := 0, returned := false } =
      .ok { doneClosed := true, tickerStopped := true, pendingTicks := 1,
            passes := 0, returned := false } ∧
    RunStep
      { doneClosed := true, tickerStopped := true, pendingTicks := 1,
        passes := 0, returned := false }
      { doneClosed := true, tickerStopped := true, pendingTicks := 0,
        passes := 1, returned := false } :=
  ⟨rfl, RunStep.selectTick _ rfl (by decide)⟩

/-- C7 amended: once `done` is closed and the ticker stopped, no new tick
ever arrives, at most the ticks already buffered (at most one, the channel
capacity) can start further passes, and the loop can always acknowledge
the stop signal and return — the background task is not leaked. -/
theorem stop_bounds_passes_and_no_leak (s t : LoopState)
    (hd : s.doneClosed = true) (ht : s.tickerStopped = true)
    (hsteps : Relation.ReflTransGen RunStep s t) :
    t.doneClosed = true ∧ t.tickerStopped = true ∧
      t.passes + t.pendingTicks = s.passes + s.pendingTicks ∧
      t.pendingTicks ≤ s.pendingTicks ∧
      t.passes ≤ s.passes + s.pendingTicks ∧
      (t.returned = false → RunStep t { t with returned := true }) := by
  induction hsteps with
  | refl =>
    exact ⟨hd, ht, rfl, Nat.le_refl _, Nat.le_add_right _ _,
      fun hr => RunStep.selectDone _ hr hd⟩
  | @tail b c hab hbc ih =>
    obtain ⟨ihd, iht, ihsum, ihle, ihp, _⟩ := ih
    cases hbc with
    | selectDone h1 h2 =>
      exact ⟨ihd, iht, ihsum, ihle, ihp, fun hr => RunStep.selectDone _ hr ihd⟩
    | selectTick h1 h2 =>
      refine ⟨ihd, iht, ?_, ?_, ?_, fun hr => RunStep.selectDone _ hr ihd⟩
      · show b.passes + 1 + (b.pendingTicks - 1) = s.passes + s.pendingTicks
        omega
      · show b.pendingTicks - 1 ≤ s.pendingTicks
        omega
      · show b.passes + 1 ≤ s.passes + s.pendingTicks
        omega
    | tickArrive h1 h2 =>
      exact absurd (iht.symm.trans h1) (by simp)

/-- Witness for C7 amended: one buffered tick at stop time yields exactly
one further pass along the step that consumes it, within the bound. -/
theorem stop_bounds_passes_and_no_leak_witness :
    (LoopState.doneClosed ⟨true, true, 1, 0, false⟩ = true) ∧
    (LoopState.tickerStopped ⟨true, true, 1, 0, false⟩ = true) ∧
    LoopState.passes ⟨true, true, 0, 1, false⟩ ≤
      LoopState.passes ⟨true, true, 1, 0, false⟩ +
        LoopState.pendingTicks ⟨true, true, 1, 0, false⟩ :=
  ⟨rfl, rfl,
   (stop_bounds_passes_and_no_leak ⟨true, true, 1, 0, false⟩ ⟨true, true, 0, 1, false⟩
      rfl rfl
      (Relation.ReflTransGen.single (RunStep.selectTick _ rfl (by decide)))).2.2.2.2.1⟩

/-- C8: whenever the WAL handle is successfully opened, the trace of
`lastWrittenTime` releases it exactly once — on the success, segment-listing
error, no-segments and stat-error exits alike — and contains no write to
the WAL. -/
theorem handle_closed_on_every_exit (storage : String) (w : WalState)
    (h : w.openErr = none) :
    (lastWrittenTime storage w).2.count .closeEv = 1 ∧
    (lastWrittenTime storage w).2.count .openEv = 1 ∧
    (lastWrittenTime storage w).2.count .writeEv = 0 := by
  have htr : (lastWrittenTime storage w).2 = [ResEvent.openEv, ResEvent.closeEv] := by
    unfold lastWrittenTime
    rw [h]
    cases hse : w.segmentsErr with
    | some e => rfl
    | none =>
      by_cases hls : w.lastSegment = -1
      · rw [if_pos hls]
      · rw [if_neg hls]
        cases hst : w.statErr with
        | some e => rfl
        | none => rfl
  rw [htr]
  exact ⟨rfl, rfl, rfl⟩

/-- Witness for C8 on a healthy WAL. -/
theorem handle_closed_on_every_exit_witness :
    activeWal.openErr = none ∧
    ((lastWrittenTime "/wal/x" activeWal).2.count .closeEv = 1 ∧
     (lastWrittenTime "/wal/x" activeWal).2.count .openEv = 1 ∧
     (lastWrittenTime "/wal/x" activeWal).2.count .writeEv = 0) :=
  ⟨rfl, handle_closed_on_every_exit "/wal/x" activeWal rfl⟩

/-- C9: from any state in which `done` is not yet closed, the first `Stop`
succeeds, and calling `Stop` again panics with Go's "close of closed
channel" — double-stop is fatal, not a no-op. -/
theorem double_stop_panics (s : LoopState) (h : s.doneClosed = false) :
    ∃ s', stopCleaner s = .ok s' ∧
      stopCleaner s' = .panicked "close of closed channel" := by
  refine ⟨{ s with doneClosed := true, tickerStopped := true }, ?_, ?_⟩
  · unfold stopCleaner
    rw [h]
    rfl
  · rfl

/-- Witness for C9 from the freshly constructed state. -/
theorem double_stop_panics_witness :
    (LoopState.doneClosed ⟨false, false, 0, 0, false⟩ = false) ∧
    ∃ s', stopCleaner ⟨false, false, 0, 0, false⟩ = .ok s' ∧
      stopCleaner s' = .panicked "close of closed channel" :=
  ⟨rfl, double_stop_panics ⟨false, false, 0, 0, false⟩ rfl⟩

/-- C10: `NewCleaner` panics (inside `time.NewTicker`) exactly for
non-positive periods; a handle is only ever returned when the period is
strictly positive. -/
theorem newCleaner_requires_positive_period (w : String) (minAge period : Int) :
    (period ≤ 0 →
      NewCleaner w minAge period = .panicked "non-positive interval for NewTicker") ∧
    (∀ h : CleanerHandle, NewCleaner w minAge period = .ok h → 0 < period) := by
  constructor
  · intro hle
    unfold NewCleaner NewTicker
    rw [if_pos hle]
  · intro h hok
    by_cases hple : period ≤ 0
    · unfold NewCleaner NewTicker at hok
      rw [if_pos hple] at hok
      exact absurd hok (by simp)
    · omega

/-- Witness for C10 at periods 0 (panic) and 60 (handle). -/
theorem newCleaner_requires_positive_period_witness :
    ((0 : Int) ≤ 0 ∧
      NewCleaner "/wal" 21600 0 = .panicked "non-positive interval for NewTicker") ∧
    (NewCleaner "/wal" 21600 60 =
        .ok { walDirectory := "/wal", minAge := 21600, ticker := ⟨60⟩,
              doneClosed := false } ∧
      (0 : Int) < 60) :=
  ⟨⟨le_refl 0, (newCleaner_requires_positive_period "/wal" 21600 0).1 (by decide)⟩,
   ⟨rfl, (newCleaner_requires_positive_period "/wal" 21600 60).2
      { walDirectory := "/wal", minAge := 21600, ticker := ⟨60⟩, doneClosed := false }
      rfl⟩⟩
